import Mathlib

/-
Shallow embedding of the go-nmea repository (package nmea) in Lean 4.

Numeric model: Go float64 values are modelled as exact rationals (ℚ).  All
coordinate arithmetic in the source (divide by 100, floor, times 60,
divide by 60, negate) is exact on the decimal inputs exercised here, so the
rational model agrees with the float64 code on every value considered.
Go strings are ASCII throughout the protocol, so Go byte slicing coincides
with Lean character operations.
-/

namespace Nmea

/-- Structured error kinds mirroring the error values produced by the Go
code (field-count errors, fixed-field errors, strconv errors, the
"unknow value" enum errors, range and direction errors of ParseDM). -/
inductive Err where
  | fieldCount (got want : Nat)
  | fixedField (idx : Nat) (got want : String)
  | numFormat (got : String)
  | numRange (got : String)
  | unrecognized (got : String)
  | badTime (got : String)
  | emptyLatLong
  | wrongDM (raw : String)
  | range (got : ℚ)
  | wrongDir (got : String)
  | malformed (got : String)
  deriving DecidableEq, Repr

/-- Decimal value of a list of digit characters (most significant first). -/
def digitsVal (l : List Char) : ℕ :=
  l.foldl (fun a c => 10 * a + (c.toNat - 48)) 0

/-- Go `strings.Trim(s, cutset)` for a one-character cutset: removes all
leading and trailing occurrences of `c`. -/
def trimChar (c : Char) (s : String) : String :=
  let l := s.data.dropWhile (fun x => x == c)
  String.mk ((l.reverse.dropWhile (fun x => x == c)).reverse)

/-- Left-pad a string with character `c` to width `w`. -/
def padLeft (c : Char) (w : ℕ) (s : String) : String :=
  String.mk (List.replicate (w - s.length) c) ++ s

/-- Go `strings.TrimSpace`: removes leading and trailing whitespace. -/
def goTrimSpace (s : String) : String :=
  String.mk ((s.data.dropWhile Char.isWhitespace).reverse.dropWhile Char.isWhitespace).reverse

/-- Go `strings.Split` on a one-character separator. -/
def splitOnChar (sep : Char) (l : List Char) : List String :=
  (l.foldr (fun c acc =>
    match acc with
    | [] => [[c]]
    | h :: t => if c == sep then [] :: h :: t else (c :: h) :: t) [[]]).map String.mk

/-- Exponent part of `goParseFloat`: optional sign then at least one digit,
consuming the whole remainder. -/
def goFloatExp (sg mant : ℚ) (r : List Char) : Option ℚ :=
  let es : ℤ := match r with
    | '-' :: _ => -1
    | _ => 1
  let r1 : List Char := match r with
    | '+' :: t => t
    | '-' :: t => t
    | t => t
  let ed := r1.takeWhile Char.isDigit
  let r2 := r1.dropWhile Char.isDigit
  if ed.isEmpty || !r2.isEmpty then none
  else some (sg * mant * (10 : ℚ) ^ (es * (digitsVal ed : ℤ)))

/-- Model of Go `strconv.ParseFloat(s, 64)` on the decimal grammar
`[+|-] digits [. digits] [(e|E) [+|-] digits]` (at least one digit in the
mantissa), returning the exact rational value.  The Go quirks not
exercised by this protocol (Inf/NaN, hex floats, digit-group underscores)
are not modelled; on those inputs this model reports failure while Go
would succeed, which only ever turns one error into another in the code
under study. -/
def goParseFloat (s : String) : Option ℚ :=
  let cs := s.data
  let sg : ℚ := match cs with
    | '-' :: _ => -1
    | _ => 1
  let cs1 : List Char := match cs with
    | '+' :: t => t
    | '-' :: t => t
    | t => t
  let ip := cs1.takeWhile Char.isDigit
  let r1 := cs1.dropWhile Char.isDigit
  let fp : List Char := match r1 with
    | '.' :: t => t.takeWhile Char.isDigit
    | _ => []
  let r2 : List Char := match r1 with
    | '.' :: t => t.dropWhile Char.isDigit
    | t => t
  if ip.isEmpty && fp.isEmpty then none
  else
    let mant : ℚ := (digitsVal ip : ℚ) + (digitsVal fp : ℚ) / (10 : ℚ) ^ fp.length
    match r2 with
    | [] => some (sg * mant)
    | 'e' :: r3 => goFloatExp sg mant r3
    | 'E' :: r3 => goFloatExp sg mant r3
    | _ => none

/-- `math.MaxInt64`, the value Go `strconv.ParseInt(_, _, 0)` returns
alongside `ErrRange` on positive overflow. -/
def maxInt64 : ℤ := 9223372036854775807

/-- `math.MinInt64`, the value Go `strconv.ParseInt(_, _, 0)` returns
alongside `ErrRange` on negative overflow. -/
def minInt64 : ℤ := -9223372036854775808

/-- Outcome of Go `strconv.ParseInt`: success with the exact value, an
`ErrSyntax` failure (returned value 0), or an `ErrRange` failure carrying
the clamped value that Go returns alongside the error. -/
inductive GoInt where
  | ok (v : ℤ)
  | syntaxErr
  | rangeErr (v : ℤ)
  deriving DecidableEq, Repr

/-- Model of Go `strconv.ParseInt(s, 10, 0)` (also `strconv.Atoi`):
optional sign then at least one decimal digit; values beyond the 64-bit
signed range yield `ErrRange` together with the clamped
`MaxInt64`/`MinInt64` value. -/
def goParseInt10 (s : String) : GoInt :=
  let cs := s.data
  let sg : ℤ := match cs with
    | '-' :: _ => -1
    | _ => 1
  let ds : List Char := match cs with
    | '+' :: t => t
    | '-' :: t => t
    | t => t
  if ds.isEmpty then .syntaxErr
  else if ds.all Char.isDigit then
    if sg * (digitsVal ds : ℤ) > maxInt64 then .rangeErr maxInt64
    else if sg * (digitsVal ds : ℤ) < minInt64 then .rangeErr minInt64
    else .ok (sg * (digitsVal ds : ℤ))
  else .syntaxErr

/-- Go `v, _ := strconv.Atoi(s)`: the returned value with the error
ignored — the exact value on success, 0 on a syntax error, and the
clamped `MaxInt64`/`MinInt64` on a range error. -/
def goAtoiD (s : String) : ℤ :=
  match goParseInt10 s with
  | .ok v => v
  | .syntaxErr => 0
  | .rangeErr v => v

/-- Model of Go `strconv.ParseUint(s, 10, 0)`: decimal digits only, no
sign; values beyond the 64-bit unsigned range fail (Go reports
`ErrRange`; the only caller checks the error, so the clamped value is
never observed). -/
def goParseUint10 (s : String) : Option ℕ :=
  if s.data.isEmpty then none
  else if s.data.all Char.isDigit then
    if digitsVal s.data ≤ 18446744073709551615 then some (digitsVal s.data)
    else none
  else none

/-- Digit value of `c` in the given radix (0-9, a-f, A-F), if valid. -/
def digitValIn (radix : ℕ) (c : Char) : Option ℕ :=
  let v : Option ℕ :=
    if c.isDigit then some (c.toNat - 48)
    else if 'a' ≤ c && c ≤ 'f' then some (c.toNat - 87)
    else if 'A' ≤ c && c ≤ 'F' then some (c.toNat - 55)
    else none
  match v with
  | some x => if x < radix then some x else none
  | none => none

/-- Value of a nonempty digit string in the given radix. -/
def radixVal (radix : ℕ) (l : List Char) : Option ℕ :=
  if l.isEmpty then none
  else
    l.foldl (fun acc c =>
      match acc, digitValIn radix c with
      | some a, some d => some (radix * a + d)
      | _, _ => none) (some 0)

/-- Model of Go `strconv.ParseUint(s, 0, 8)` (base inferred from the
prefix: `0x`/`0o`/`0b`, a bare leading `0` meaning octal, else decimal;
result must fit in 8 bits).  Digit-group underscores are not modelled. -/
def goParseUint0Bit8 (s : String) : Option ℕ :=
  let core : Option ℕ := match s.data with
    | [] => none
    | '0' :: 'x' :: r => radixVal 16 r
    | '0' :: 'X' :: r => radixVal 16 r
    | '0' :: 'o' :: r => radixVal 8 r
    | '0' :: 'O' :: r => radixVal 8 r
    | '0' :: 'b' :: r => radixVal 2 r
    | '0' :: 'B' :: r => radixVal 2 r
    | '0' :: r => if r.isEmpty then some 0 else radixVal 8 r
    | l => radixVal 10 l
  match core with
  | some v => if v < 256 then some v else none
  | none => none

/-! ## Coordinate model (src/gpdbt.go, lines 63-252 of the latlong part) -/

/-- `North CardinalPoint = "N"` -/
def North : String := "N"
/-- `South CardinalPoint = "S"` -/
def South : String := "S"
/-- `East CardinalPoint = "E"` -/
def East : String := "E"
/-- `West CardinalPoint = "W"` -/
def West : String := "W"

/-- Go `ParseCardinalPoint`: the string must be one of N, S, E, W;
otherwise the "unknow value" error. -/
def ParseCardinalPoint (raw : String) : Except Err String :=
  if raw = North ∨ raw = South ∨ raw = East ∨ raw = West then .ok raw
  else .error (.unrecognized raw)

/-- `MaxLat float64 = 90` -/
def MaxLat : ℚ := 90
/-- `MaxLong float64 = 180` -/
def MaxLong : ℚ := 180

/-- The arithmetic of Go `ParseDM`: `d := math.Floor(dm / 100)`,
`m := dm - d*100`, result `d + m/60` (minutes converted to degrees). -/
def dmVal (dm : ℚ) : ℚ :=
  ((⌊dm / 100⌋ : ℤ) : ℚ) + (dm - ((⌊dm / 100⌋ : ℤ) : ℚ) * 100) / 60

/-- The switch section of Go `ParseDM` once the number `dm` and the
direction letter `dir` are in hand: the range-check switch on the
direction, then the hemisphere-sign switch. -/
def dmCore (dm : ℚ) (dir : String) : Except Err ℚ :=
  match (if dir = North ∨ dir = South then
           if |dmVal dm| > MaxLat then Except.error (Err.range (dmVal dm)) else Except.ok ()
         else if dir = East ∨ dir = West then
           if |dmVal dm| > MaxLong then Except.error (Err.range (dmVal dm)) else Except.ok ()
         else Except.error (Err.wrongDir dir) : Except Err Unit) with
  | .error e => .error e
  | .ok _ =>
    if dir = North ∨ dir = East then .ok (dmVal dm)
    else if dir = South ∨ dir = West then .ok (0 - dmVal dm)
    else .error (.wrongDir dir)

/-- Go `ParseDM`: strips the final two bytes of `raw`, parses the
remainder (whitespace-trimmed) as a float, takes the final byte as the
cardinal point, then runs `dmCore`. -/
def ParseDM (raw : String) : Except Err ℚ :=
  if raw.length < 2 then .error (.wrongDM raw)
  else
    match goParseFloat (goTrimSpace (raw.take (raw.length - 2))) with
    | none => .error (.numFormat (goTrimSpace (raw.take (raw.length - 2))))
    | some dm =>
      match ParseCardinalPoint (String.singleton raw.back) with
      | .error e => .error e
      | .ok dir => dmCore dm dir

/-- Go `NewLatLong`: empty (after trimming) is an error, otherwise
`ParseDM`. -/
def NewLatLong (raw : String) : Except Err ℚ :=
  if goTrimSpace raw = "" then .error .emptyLatLong
  else ParseDM raw

/-- Go `LatLong.CardinalPoint`: empty cardinal point for the 0 value,
otherwise the hemisphere letter, chosen by the sign and the axis. -/
def LatLong.CardinalPoint (l : ℚ) (isLatitude : Bool) : String :=
  if l = 0 then ""
  else if l < 0 then (if isLatitude then South else West)
  else if isLatitude then North
  else East

/-- Go `LatLong.DM`: whole degrees (floor for non-negative values, ceiling
for negative ones) and the remaining minutes. -/
def LatLong.DM (l : ℚ) : ℤ × ℚ :=
  if 0 ≤ l then (⌊l⌋, (l - (⌊l⌋ : ℚ)) * 60)
  else (⌈l⌉, (|l| - |((⌈l⌉ : ℤ) : ℚ)|) * 60)

/-- Go `fmt.Sprintf("%02d", d)`: decimal with the total width zero-padded
to 2. -/
def fmt02d (d : ℤ) : String :=
  if d < 0 then "-" ++ padLeft '0' 1 (toString d.natAbs)
  else padLeft '0' 2 (toString d.toNat)

/-- Go `fmt.Sprintf("%09.6f", q)`: six fixed decimals, total width
zero-padded to 9.  Rounding is to the nearest multiple of 10^-6 (every
value formatted by this code is an exact multiple, so ties never
arise). -/
def fmtFixed6Pad9 (q : ℚ) : String :=
  if q < 0 then
    let n := (⌊-q * 1000000 + 1/2⌋ : ℤ).toNat
    "-" ++ padLeft '0' 8 (toString (n / 1000000) ++ "." ++ padLeft '0' 6 (toString (n % 1000000)))
  else
    let n := (⌊q * 1000000 + 1/2⌋ : ℤ).toNat
    padLeft '0' 9 (toString (n / 1000000) ++ "." ++ padLeft '0' 6 (toString (n % 1000000)))

/-- Go `LatLong.ToDM`: empty string for the 0 value, otherwise
`strings.Trim(fmt.Sprintf("%02d%09.6f", d, m), "0")`. -/
def ToDM (l : ℚ) : String :=
  if l = 0 then ""
  else
    let p := LatLong.DM l
    trimChar '0' (fmt02d p.1 ++ fmtFixed6Pad9 p.2)

/-! ## Time model (Go `time.Parse` on the layouts used by the package) -/

/-- A wall-clock time as parsed by layout `150405.000`: hour, minute,
second, milliseconds. -/
structure Clock where
  h : ℕ
  mi : ℕ
  s : ℕ
  ms : ℕ
  deriving DecidableEq, Repr

/-- Model of Go `time.Parse("150405.000", s)`: exactly `hhmmss.fff` with
all-digit components and in-range hour/minute/second. -/
def goParseClock (str : String) : Option Clock :=
  match str.data with
  | [h1, h2, m1, m2, s1, s2, '.', f1, f2, f3] =>
    if [h1, h2, m1, m2, s1, s2, f1, f2, f3].all Char.isDigit then
      let h := digitsVal [h1, h2]
      let mi := digitsVal [m1, m2]
      let ss := digitsVal [s1, s2]
      if h ≤ 23 && mi ≤ 59 && ss ≤ 59 then
        some ⟨h, mi, ss, digitsVal [f1, f2, f3]⟩
      else none
    else none
  | _ => none

/-- Go `t.Format("150405.000")`. -/
def formatClock (c : Clock) : String :=
  padLeft '0' 2 (toString c.h) ++ padLeft '0' 2 (toString c.mi) ++
    padLeft '0' 2 (toString c.s) ++ "." ++ padLeft '0' 3 (toString c.ms)

/-- A date plus clock as parsed by layout `020106 150405.000`. -/
structure DateClock where
  day : ℕ
  month : ℕ
  year : ℕ
  clock : Clock
  deriving DecidableEq, Repr

/-- Model of Go `time.Parse("020106 150405.000", s)`: `ddmmyy` then a
space then the clock layout.  (Go additionally rejects day numbers
invalid for the given month; no theorem here depends on that case.) -/
def goParseDateClock (s : String) : Option DateClock :=
  match s.data with
  | d1 :: d2 :: mo1 :: mo2 :: y1 :: y2 :: ' ' :: rest =>
    if [d1, d2, mo1, mo2, y1, y2].all Char.isDigit then
      match goParseClock (String.mk rest) with
      | some c =>
        let dd := digitsVal [d1, d2]
        let mm := digitsVal [mo1, mo2]
        if 1 ≤ dd && dd ≤ 31 && 1 ≤ mm && mm ≤ 12 then
          some ⟨dd, mm, digitsVal [y1, y2], c⟩
        else none
      | none => none
    else none
  | _ => none

/-! ## Checksum engine and wire assembly

The `Message` type and its methods (`ComputeChecksum`, `Serialize`), the
`TypeIDs` table and the frame decoder are code of this repository that is
not under src/; they are modelled from the spec (sections 4.1, 4.4 and 6). -/

/-- Modelled from the spec: the checksum engine, a running exclusive-OR of
every payload byte. -/
def strXor (s : String) : ℕ :=
  s.data.foldl (fun a c => a ^^^ c.toNat) 0

/-- Uppercase hexadecimal digit. -/
def hexDigitU (n : ℕ) : Char :=
  if n < 10 then Char.ofNat (48 + n) else Char.ofNat (55 + n)

/-- Two uppercase hexadecimal digits, zero-padded. -/
def hex2 (n : ℕ) : String :=
  String.mk [hexDigitU (n / 16 % 16), hexDigitU (n % 16)]

/-- Modelled from the spec: the `TypeIDs` registry maps a sentence name to
its wire type identifier (the identifier itself). -/
def TypeIDs (k : String) : String := k

/-- Modelled from the spec: `Message.Serialize` joins the type identifier
and the fields with commas, prefixes the `$` marker and appends `*` and
the two-hex-digit checksum computed over the span between them. -/
def msgSerialize (typeId : String) (fields : List String) : String :=
  let payload := String.intercalate "," (typeId :: fields)
  "$" ++ payload ++ "*" ++ hex2 (strXor payload)

/-! ## Enumerated value types -/

/-- Modelled from the spec: positioning-mode tokens are single letters
(Autonomous `A`, Differential `D`, Estimated `E`, NotValid `N`). -/
def ParsePositioningMode (raw : String) : Except Err String :=
  if raw = "A" ∨ raw = "D" ∨ raw = "E" ∨ raw = "N" then .ok raw
  else .error (.unrecognized raw)

/-- Modelled from the spec: `DataValid` serializes to its wire token,
`A` for valid and `V` for invalid. -/
def dataValidSerialize (b : Bool) : String :=
  if b then "A" else "V"

/-- Go `ParseQualityIndicator`: parse a base-10 integer, then require
membership in {0 = invalid, 1 = GNSS fix, 2 = DGPS fix}. -/
def ParseQualityIndicator (raw : String) : Except Err ℤ :=
  match goParseInt10 raw with
  | .syntaxErr => .error (.numFormat raw)
  | .rangeErr _ => .error (.numRange raw)
  | .ok i => if i = 0 ∨ i = 1 ∨ i = 2 then .ok i else .error (.unrecognized raw)

/-- Go `ParseMode`: the string must be `M` (manual) or `A` (automatic). -/
def ParseMode (raw : String) : Except Err String :=
  if raw = "M" ∨ raw = "A" then .ok raw
  else .error (.unrecognized raw)

/-- Go `ParseFixStatus`: parse a base-10 integer, then require membership
in {1 = no fix, 2 = 2D, 3 = 3D}. -/
def ParseFixStatus (raw : String) : Except Err ℤ :=
  match goParseInt10 raw with
  | .syntaxErr => .error (.numFormat raw)
  | .rangeErr _ => .error (.numRange raw)
  | .ok i => if i = 1 ∨ i = 2 ∨ i = 3 then .ok i else .error (.unrecognized raw)

/-- Modelled from the spec: `Severity` levels are integer tokens from a
closed protocol-defined set (00 error, 01 warning, 02 notice, 07 user). -/
def ParseSeverity (raw : String) : Except Err ℤ :=
  match goParseInt10 raw with
  | .syntaxErr => .error (.numFormat raw)
  | .rangeErr _ => .error (.numRange raw)
  | .ok i => if i = 0 ∨ i = 1 ∨ i = 2 ∨ i = 7 then .ok i else .error (.unrecognized raw)

/-! ## Shared field-extraction helpers (the repeated Go blocks) -/

/-- The Go block `if m.X, err = strconv.ParseFloat(f, 64); err != nil`. -/
def parseFloatE (s : String) : Except Err ℚ :=
  match goParseFloat s with
  | some v => .ok v
  | none => .error (.numFormat s)

/-- The Go block `if f := m.Fields[i]; len(f) > 0 { parse into a plain
float64 field }`: an empty field leaves the zero value. -/
def parseFloatOr0 (s : String) : Except Err ℚ :=
  if 0 < s.length then parseFloatE s else .ok 0

/-- The Go block guarding a `*float64` field: empty means nil (absent). -/
def parseOptFloat (s : String) : Except Err (Option ℚ) :=
  if 0 < s.length then
    match goParseFloat s with
    | some v => .ok (some v)
    | none => .error (.numFormat s)
  else .ok none

/-- The Go block guarding the `*uint8` station field
(`strconv.ParseUint(f, 0, 8)`): empty means nil (absent). -/
def parseOptStation (s : String) : Except Err (Option ℕ) :=
  if 0 < s.length then
    match goParseUint0Bit8 s with
    | some v => .ok (some v)
    | none => .error (.numFormat s)
  else .ok none

/-- The Go block `x := strings.TrimSpace(strings.Join(fields[i:i+2], " "));
if len(x) > 0 { NewLatLong(x) }`: an empty pair leaves the zero value. -/
def parseLatLongPair (a b : String) : Except Err ℚ :=
  let raw := goTrimSpace (String.intercalate " " [a, b])
  if 0 < raw.length then NewLatLong raw else .ok 0

/-- The Go block `if m.T, err = time.Parse("150405.000", f)`. -/
def parseClockE (s : String) : Except Err Clock :=
  match goParseClock s with
  | some t => .ok t
  | none => .error (.badTime s)

/-- The Go block `if m.X, err = strconv.ParseUint(f, 10, 0)`. -/
def parseUintE (s : String) : Except Err ℕ :=
  match goParseUint10 s with
  | some v => .ok v
  | none => .error (.numFormat s)

/-- The Go block `if m.X, err = strconv.Atoi(f); err != nil`. -/
def parseIntE (s : String) : Except Err ℤ :=
  match goParseInt10 s with
  | .ok v => .ok v
  | .syntaxErr => .error (.numFormat s)
  | .rangeErr _ => .error (.numRange s)

/-- The Go block `if m.T, err = time.Parse("020106 150405.000", f)`. -/
def parseDateClockE (s : String) : Except Err DateClock :=
  match goParseDateClock s with
  | some v => .ok v
  | none => .error (.badTime s)

/-! ## GPGLL (src/gpgll.go) -/

/-- GPGLL struct. -/
structure GPGLL where
  TimeUTC : Clock
  Latitude : ℚ
  Longitude : ℚ
  IsValid : Bool
  PositioningMode : String
  deriving DecidableEq, Repr

/-- Go `GPGLL.parse`. -/
def gpgllParse (fields : List String) : Except Err GPGLL :=
  if fields.length ≠ 7 then .error (.fieldCount fields.length 7)
  else do
    let lat ← parseLatLongPair (fields.getD 0 "") (fields.getD 1 "")
    let lon ← parseLatLongPair (fields.getD 2 "") (fields.getD 3 "")
    let t ← parseClockE (fields.getD 4 "")
    let pm ← ParsePositioningMode (fields.getD 6 "")
    pure ⟨t, lat, lon, fields.getD 5 "" == "A", pm⟩

/-- Go `GPGLL.Serialize`: note the emitted field order (time first, no
positioning mode), which differs from the wire order parsed. -/
def gpgllSerialize (m : GPGLL) : String :=
  msgSerialize (TypeIDs "GPGLL")
    [formatClock m.TimeUTC,
     trimChar '0' (ToDM m.Latitude), LatLong.CardinalPoint m.Latitude true,
     trimChar '0' (ToDM m.Longitude), LatLong.CardinalPoint m.Longitude false,
     dataValidSerialize m.IsValid]

/-- Modelled from the spec: the frame decoder (marker, payload split on
commas, checksum verify) followed by dispatch on the GPGLL identifier. -/
def DecodeGPGLL (line : String) : Except Err GPGLL :=
  match line.data with
  | '$' :: rest =>
    match splitOnChar '*' rest with
    | [payload, cksum] =>
      match radixVal 16 cksum.data with
      | some v =>
        if cksum.length = 2 ∧ strXor payload = v then
          match splitOnChar ',' payload.data with
          | t :: fs => if t = "GPGLL" then gpgllParse fs else .error (.unrecognized t)
          | [] => .error (.malformed line)
        else .error (.malformed line)
      | none => .error (.malformed line)
    | _ => .error (.malformed line)
  | _ => .error (.malformed line)

/-! ## GPGGA (src/unnamed/part_000) -/

/-- Go `fmt.Sprintf("%.1f", q)`: one fixed decimal, natural width. -/
def fmtFixed1 (q : ℚ) : String :=
  if q < 0 then
    "-" ++ toString ((⌊-q * 10 + 1/2⌋ : ℤ).toNat / 10) ++ "."
      ++ toString ((⌊-q * 10 + 1/2⌋ : ℤ).toNat % 10)
  else
    toString ((⌊q * 10 + 1/2⌋ : ℤ).toNat / 10) ++ "."
      ++ toString ((⌊q * 10 + 1/2⌋ : ℤ).toNat % 10)

/-- Go `fmt.Sprintf("%03.1f", q)`: one fixed decimal, total width
zero-padded to 3. -/
def fmtFixed1Pad3 (q : ℚ) : String :=
  if q < 0 then
    "-" ++ padLeft '0' 2 (toString ((⌊-q * 10 + 1/2⌋ : ℤ).toNat / 10) ++ "."
      ++ toString ((⌊-q * 10 + 1/2⌋ : ℤ).toNat % 10))
  else
    padLeft '0' 3 (toString ((⌊q * 10 + 1/2⌋ : ℤ).toNat / 10) ++ "."
      ++ toString ((⌊q * 10 + 1/2⌋ : ℤ).toNat % 10))

/-- Modelled from the spec: `PrependXZero(v, "%03.1f", x)` zero-pads the
one-decimal rendering of `v` until the integer part has `x` digits
(wire example: altitude `51.6` renders as `0051.6`). -/
def PrependXZero (q : ℚ) (x : ℕ) : String :=
  padLeft '0' (x + 2) (fmtFixed1 q)

/-- GPGGA struct.  The Go `*float64`/`*uint8` pointer fields are `Option`;
the plain `float64` fields `HDOP` and `Altitude` keep their Go zero
value when the wire field is empty. -/
structure GPGGA where
  TimeUTC : Clock
  Latitude : ℚ
  Longitude : ℚ
  QualityIndicator : ℤ
  NbOfSatellitesUsed : ℕ
  HDOP : ℚ
  Altitude : ℚ
  GeoIDSep : Option ℚ
  DGPSAge : Option ℚ
  DGPSStationID : Option ℕ
  deriving DecidableEq, Repr

/-- Go `GPGGA.parse`.  The Go fixed-field loop ranges over a map
(`{9: "M", 11: "M"}`) in unspecified order; it is modelled in ascending
index order, which changes at most which of two fixed-field errors is
reported. -/
def gpggaParse (fields : List String) : Except Err GPGGA :=
  if fields.length ≠ 14 then .error (.fieldCount fields.length 14)
  else if fields.getD 9 "" ≠ "M" then .error (.fixedField 9 (fields.getD 9 "") "M")
  else if fields.getD 11 "" ≠ "M" then .error (.fixedField 11 (fields.getD 11 "") "M")
  else do
    let t ← parseClockE (fields.getD 0 "")
    let lat ← parseLatLongPair (fields.getD 1 "") (fields.getD 2 "")
    let lon ← parseLatLongPair (fields.getD 3 "") (fields.getD 4 "")
    let qi ← ParseQualityIndicator (fields.getD 5 "")
    let nsat ← parseUintE (fields.getD 6 "")
    let hdop ← parseFloatOr0 (fields.getD 7 "")
    let alt ← parseFloatOr0 (fields.getD 8 "")
    let geo ← parseOptFloat (fields.getD 10 "")
    let age ← parseOptFloat (fields.getD 12 "")
    let station ← parseOptStation (fields.getD 13 "")
    pure ⟨t, lat, lon, qi, nsat, hdop, alt, geo, age, station⟩

/-- The ordered field list assembled by Go `GPGGA.Serialize` (the appends
between the header and the checksum computation). -/
def gpggaSerializeFields (m : GPGGA) : List String :=
  [formatClock m.TimeUTC,
   trimChar '0' (ToDM m.Latitude), LatLong.CardinalPoint m.Latitude true,
   trimChar '0' (ToDM m.Longitude), LatLong.CardinalPoint m.Longitude false,
   toString m.QualityIndicator,
   toString m.NbOfSatellitesUsed,
   if 0 < m.HDOP then fmtFixed1Pad3 m.HDOP else "",
   if 0 < m.Altitude then PrependXZero m.Altitude 4 else "",
   "M",
   match m.GeoIDSep with
   | some g => fmtFixed1Pad3 g
   | none => "",
   "M",
   match m.DGPSAge with
   | some a => fmtFixed1 a
   | none => "",
   match m.DGPSStationID with
   | some v => padLeft '0' 4 (toString v)
   | none => ""]

/-- Go `GPGGA.Serialize`. -/
def gpggaSerialize (m : GPGGA) : String :=
  msgSerialize (TypeIDs "GPGGA") (gpggaSerializeFields m)

/-! ## GPGSA (src/unnamed/part_001) -/

/-- GPGSA struct.  `SatelliteUsedOnChannel` models the Go `[13]int` with
index 0 unused: the list has 13 entries and entry 0 keeps the array's
zero value. -/
structure GPGSA where
  Mode : String
  FixStatus : ℤ
  SatelliteUsedOnChannel : List ℤ
  PDOP : ℚ
  HDOP : ℚ
  VDOP : ℚ
  deriving DecidableEq, Repr

/-- Go `GPGSA.parse`.  The satellite loop
`for k, v := range m.Fields[2:14] { m.SatelliteUsedOnChannel[k+1], _ = strconv.Atoi(v) }`
ignores conversion errors, so every slot holds the parsed value or 0. -/
def gpgsaParse (fields : List String) : Except Err GPGSA :=
  if fields.length ≠ 17 then .error (.fieldCount fields.length 17)
  else do
    let mode ← ParseMode (fields.getD 0 "")
    let fix ← ParseFixStatus (fields.getD 1 "")
    let sats : List ℤ := 0 :: ((fields.drop 2).take 12).map goAtoiD
    let pdop ← parseFloatOr0 (fields.getD 14 "")
    let hdop ← parseFloatOr0 (fields.getD 15 "")
    let vdop ← parseFloatOr0 (fields.getD 16 "")
    pure ⟨mode, fix, sats, pdop, hdop, vdop⟩

/-! ## GPVTG (src/gptxt.go, second part) -/

/-- GPVTG struct. -/
structure GPVTG where
  COG : ℚ
  SpeedKnots : ℚ
  SpeedKmh : ℚ
  PositioningMode : String
  deriving DecidableEq, Repr

/-- Go `GPVTG.parse`.  The fixed-field map `{1: "T", 3: "M", 5: "N",
7: "K"}` is modelled in ascending index order. -/
def gpvtgParse (fields : List String) : Except Err GPVTG :=
  if fields.length ≠ 9 then .error (.fieldCount fields.length 9)
  else if fields.getD 1 "" ≠ "T" then .error (.fixedField 1 (fields.getD 1 "") "T")
  else if fields.getD 3 "" ≠ "M" then .error (.fixedField 3 (fields.getD 3 "") "M")
  else if fields.getD 5 "" ≠ "N" then .error (.fixedField 5 (fields.getD 5 "") "N")
  else if fields.getD 7 "" ≠ "K" then .error (.fixedField 7 (fields.getD 7 "") "K")
  else do
    let cog ← parseFloatE (fields.getD 0 "")
    let knots ← parseFloatE (fields.getD 4 "")
    let kmh ← parseFloatE (fields.getD 6 "")
    let pm ← ParsePositioningMode (fields.getD 8 "")
    pure ⟨cog, knots, kmh, pm⟩

/-! ## GPDBT (src/gpdbt.go) -/

/-- GPDBT struct. -/
structure GPDBT where
  DepthInFeet : ℚ
  DepthInMeters : ℚ
  DepthInFathoms : ℚ
  deriving DecidableEq, Repr

/-- Go `GPDBT.parse`.  The fixed-field map `{1: "f", 3: "M", 5: "F"}` is
modelled in ascending index order. -/
def gpdbtParse (fields : List String) : Except Err GPDBT :=
  if fields.length ≠ 6 then .error (.fieldCount fields.length 6)
  else if fields.getD 1 "" ≠ "f" then .error (.fixedField 1 (fields.getD 1 "") "f")
  else if fields.getD 3 "" ≠ "M" then .error (.fixedField 3 (fields.getD 3 "") "M")
  else if fields.getD 5 "" ≠ "F" then .error (.fixedField 5 (fields.getD 5 "") "F")
  else do
    let feet ← parseFloatE (fields.getD 0 "")
    let meters ← parseFloatE (fields.getD 2 "")
    let fathoms ← parseFloatE (fields.getD 4 "")
    pure ⟨feet, meters, fathoms⟩

/-! ## GPTXT (src/gptxt.go) -/

/-- GPTXT struct. -/
structure GPTXT where
  TotalNbMsgInTx : ℤ
  MsgNumInTx : ℤ
  Severity : ℤ
  TxtMsg : String
  deriving DecidableEq, Repr

/-- Go `GPTXT.parse`. -/
def gptxtParse (fields : List String) : Except Err GPTXT :=
  if fields.length ≠ 4 then .error (.fieldCount fields.length 4)
  else do
    let total ← parseIntE (fields.getD 0 "")
    let num ← parseIntE (fields.getD 1 "")
    let sev ← ParseSeverity (fields.getD 2 "")
    pure ⟨total, num, sev, String.intercalate " " (fields.drop 3)⟩

/-! ## GPRMC (src/unnamed/part_000, second part) -/

/-- GPRMC struct. -/
structure GPRMC where
  DateTimeUTC : DateClock
  IsValid : Bool
  Latitude : ℚ
  Longitude : ℚ
  Speed : ℚ
  COG : ℚ
  MagneticVariation : ℚ
  PositioningMode : String
  deriving DecidableEq, Repr

/-- The Go magnetic-variation block of `GPRMC.parse`: the value field is
optional (zero when empty); a nonempty direction field must be a cardinal
point, West negates, East keeps, North/South are errors. -/
def parseMagVar (v dirS : String) : Except Err ℚ :=
  if 0 < v.length then
    match goParseFloat v with
    | none => .error (.numFormat v)
    | some mv =>
      if 0 < dirS.length then
        match ParseCardinalPoint dirS with
        | .error _ => .error (.unrecognized dirS)
        | .ok dir =>
          if dir = West then .ok (0 - mv)
          else if dir = East then .ok mv
          else .error (.wrongDir dirS)
      else .ok mv
  else .ok 0

/-- Go `GPRMC.parse`. -/
def gprmcParse (fields : List String) : Except Err GPRMC :=
  if fields.length ≠ 12 then .error (.fieldCount fields.length 12)
  else do
    let dt ← parseDateClockE (fields.getD 8 "" ++ " " ++ fields.getD 0 "")
    let lat ← parseLatLongPair (fields.getD 2 "") (fields.getD 3 "")
    let lon ← parseLatLongPair (fields.getD 4 "") (fields.getD 5 "")
    let speed ← parseFloatE (fields.getD 6 "")
    let cog ← parseFloatE (fields.getD 7 "")
    let mv ← parseMagVar (fields.getD 9 "") (fields.getD 10 "")
    let pm ← ParsePositioningMode (fields.getD 11 "")
    pure ⟨dt, fields.getD 1 "" == "A", lat, lon, speed, cog, mv, pm⟩

/-! ## Result-shape predicates -/

/-- The result is a field-count ("Incomplete ... message") error. -/
def isFieldCountErr {α : Type} : Except Err α → Bool
  | .error (.fieldCount _ _) => true
  | _ => false

/-- The result is an "Invalid fixed field" error. -/
def isFixedFieldErr {α : Type} : Except Err α → Bool
  | .error (.fixedField _ _ _) => true
  | _ => false

/-- The result is an "unknow value" (unrecognized enum token) error. -/
def isUnrecognizedErr {α : Type} : Except Err α → Bool
  | .error (.unrecognized _) => true
  | _ => false

/-- The result is any error. -/
def isErr {α : Type} : Except Err α → Bool
  | .error _ => true
  | .ok _ => false

end Nmea

deriving instance DecidableEq for Except

namespace Nmea

section Claims

/- Batteries marks the `Rat` field operations irreducible, which blocks
`decide` on concrete rational computations; restore kernel evaluation
locally for the proofs below. -/
attribute [local semireducible] Rat.mul Rat.inv Rat.add Rat.sub Rat.ofScientific

/-! ## Supporting lemmas -/

theorem bind_ok {ε α β : Type} (x : Except ε α) (f : α → Except ε β) (b : β) :
    (x >>= f) = .ok b ↔ ∃ a, x = .ok a ∧ f a = .ok b := by
  cases x <;> simp [Bind.bind, Except.bind]

theorem pure_ok {ε α : Type} (a b : α) :
    (pure a : Except ε α) = .ok b ↔ a = b := by
  simp [pure, Except.pure]

theorem dmVal_nonneg (dm : ℚ) (h0 : 0 ≤ dm) : 0 ≤ dmVal dm := by
  have hd : (0 : ℤ) ≤ ⌊dm / 100⌋ := Int.floor_nonneg.mpr (by positivity)
  have hd' : (0 : ℚ) ≤ ((⌊dm / 100⌋ : ℤ) : ℚ) := by exact_mod_cast hd
  have hdle : ((⌊dm / 100⌋ : ℤ) : ℚ) ≤ dm / 100 := Int.floor_le _
  have hm : 0 ≤ dm - ((⌊dm / 100⌋ : ℤ) : ℚ) * 100 := by linarith
  have hm60 : 0 ≤ (dm - ((⌊dm / 100⌋ : ℤ) : ℚ) * 100) / 60 :=
    div_nonneg hm (by norm_num)
  unfold dmVal
  linarith

theorem dmVal_eq_zero_iff (dm : ℚ) (h0 : 0 ≤ dm) : dmVal dm = 0 ↔ dm = 0 := by
  constructor
  · intro h
    have hd : (0 : ℤ) ≤ ⌊dm / 100⌋ := Int.floor_nonneg.mpr (by positivity)
    have hd' : (0 : ℚ) ≤ ((⌊dm / 100⌋ : ℤ) : ℚ) := by exact_mod_cast hd
    have hdle : ((⌊dm / 100⌋ : ℤ) : ℚ) ≤ dm / 100 := Int.floor_le _
    have hm : 0 ≤ dm - ((⌊dm / 100⌋ : ℤ) : ℚ) * 100 := by linarith
    have hm60 : 0 ≤ (dm - ((⌊dm / 100⌋ : ℤ) : ℚ) * 100) / 60 :=
      div_nonneg hm (by norm_num)
    unfold dmVal at h
    have h1 : ((⌊dm / 100⌋ : ℤ) : ℚ) = 0 := by linarith
    have h2 : (dm - ((⌊dm / 100⌋ : ℤ) : ℚ) * 100) / 60 = 0 := by linarith
    have h3 : dm - ((⌊dm / 100⌋ : ℤ) : ℚ) * 100 = 0 := by
      have := (div_eq_zero_iff).mp h2
      rcases this with h' | h'
      · exact h'
      · norm_num at h'
    linarith
  · intro h
    subst h
    unfold dmVal
    norm_num

theorem dmCore_ok_sign (dm : ℚ) (dir : String) (r : ℚ) (h0 : 0 ≤ dm)
    (h : dmCore dm dir = .ok r) :
    (r < 0 ↔ (dir = South ∨ dir = West) ∧ dm ≠ 0) := by
  have hnn := dmVal_nonneg dm h0
  have hz := dmVal_eq_zero_iff dm h0
  unfold dmCore at h
  by_cases hNS : dir = North ∨ dir = South
  · rw [if_pos hNS] at h
    by_cases hr : |dmVal dm| > MaxLat
    · rw [if_pos hr] at h
      simp at h
    · rw [if_neg hr] at h
      rcases hNS with hN | hS
      · subst hN
        simp only [North, South, East, West] at h ⊢
        simp at h
        subst h
        simp only [String.reduceEq, false_or, or_self, false_and, iff_false]
        exact not_lt.mpr hnn
      · subst hS
        simp only [North, South, East, West] at h ⊢
        simp at h
        subst h
        simp only [String.reduceEq, true_or, true_and, sub_neg, zero_sub, neg_neg]
        constructor
        · intro hlt hdm0
          have : dmVal dm = 0 := hz.mpr hdm0
          rw [this] at hlt
          norm_num at hlt
        · intro hdm
          have hne : dmVal dm ≠ 0 := fun hh => hdm (hz.mp hh)
          have hpos : 0 < dmVal dm := lt_of_le_of_ne hnn (Ne.symm hne)
          linarith
  · rw [if_neg hNS] at h
    by_cases hEW : dir = East ∨ dir = West
    · rw [if_pos hEW] at h
      by_cases hr : |dmVal dm| > MaxLong
      · rw [if_pos hr] at h
        simp at h
      · rw [if_neg hr] at h
        rcases hEW with hE | hW
        · subst hE
          simp only [North, South, East, West] at h ⊢
          simp at h
          subst h
          simp only [String.reduceEq, or_self, false_and, iff_false]
          exact not_lt.mpr hnn
        · subst hW
          simp only [North, South, East, West] at h ⊢
          simp at h
          subst h
          simp only [String.reduceEq, or_true, true_and, sub_neg, zero_sub, neg_neg]
          constructor
          · intro hlt hdm0
            have : dmVal dm = 0 := hz.mpr hdm0
            rw [this] at hlt
            norm_num at hlt
          · intro hdm
            have hne : dmVal dm ≠ 0 := fun hh => hdm (hz.mp hh)
            have hpos : 0 < dmVal dm := lt_of_le_of_ne hnn (Ne.symm hne)
            linarith
    · rw [if_neg hEW] at h
      simp at h

/-! ## Claim C1 -/

/-- C1: the claimed round-trip
`ParseDM (ToDM c ++ CardinalPoint c) = c` fails on the code.  At
`c = 31.18818` (an exact multiple of the wire's minute resolution),
`ToDM` yields `"3111.2908"` and the appended cardinal point is `"N"`,
but `ParseDM` slices off the final two characters of its input, so the
last minutes digit is lost and the result is `31.188166...`, not `c`. -/
theorem c1_todm_parsedm_roundtrip_fails :
    ToDM (1559409 / 50000 : ℚ) = "3111.2908"
    ∧ LatLong.CardinalPoint (1559409 / 50000 : ℚ) true = "N"
    ∧ ParseDM (ToDM (1559409 / 50000 : ℚ) ++ LatLong.CardinalPoint (1559409 / 50000 : ℚ) true)
        = .ok (187129 / 6000 : ℚ)
    ∧ (187129 / 6000 : ℚ) ≠ (1559409 / 50000 : ℚ) := by
  refine ⟨by decide, by decide, by decide, by decide⟩

/-! ## Claim C2 -/

/-- C2 counterexample: the string `"0.0 S"` is accepted by `ParseDM` and
carries the cardinal suffix `S`, yet the parsed coordinate `0` is not
negative — so "negative iff the suffix is S or W" fails as stated. -/
theorem c2_hemisphere_sign_counterexample :
    ParseDM "0.0 S" = .ok (0 : ℚ) ∧ ¬ ((0 : ℚ) < 0) := by
  refine ⟨by decide, by norm_num⟩

/-- C2 amended: for every accepted DM string whose numeric part is
non-negative, the parsed coordinate is negative iff the cardinal suffix
is S or W AND the numeric part is nonzero (an S/W string with numeric
part 0 parses to 0, which is not negative); for N or E the result is
never negative. -/
theorem c2_hemisphere_sign_amended (raw : String) (r q : ℚ)
    (hok : ParseDM raw = .ok r)
    (hq : goParseFloat (goTrimSpace (raw.take (raw.length - 2))) = some q)
    (h0 : 0 ≤ q) :
    (r < 0 ↔ ((String.singleton raw.back = South ∨ String.singleton raw.back = West) ∧ q ≠ 0)) := by
  unfold ParseDM at hok
  by_cases hlen : raw.length < 2
  · rw [if_pos hlen] at hok
    simp at hok
  · rw [if_neg hlen, hq] at hok
    unfold ParseCardinalPoint at hok
    by_cases hmem : String.singleton raw.back = North ∨ String.singleton raw.back = South
        ∨ String.singleton raw.back = East ∨ String.singleton raw.back = West
    · rw [if_pos hmem] at hok
      exact dmCore_ok_sign q _ r h0 hok
    · rw [if_neg hmem] at hok
      simp at hok

/-- Witness for C2 amended at the concrete input `"130.5 S"`. -/
theorem c2_hemisphere_sign_amended_witness :
    ((-181 / 120 : ℚ) < 0 ↔
      ((String.singleton (String.back "130.5 S") = South
          ∨ String.singleton (String.back "130.5 S") = West)
        ∧ (261 / 2 : ℚ) ≠ 0)) :=
  c2_hemisphere_sign_amended "130.5 S" (-181 / 120) (261 / 2)
    (by decide) (by decide) (by norm_num)

/-! ## Claim C4 -/

/-- C4: the coordinate 0 formats as the empty string, and its cardinal
point is empty at both the latitude and the longitude call site. -/
theorem c4_zero_coordinate_empty :
    ToDM 0 = "" ∧ LatLong.CardinalPoint 0 true = "" ∧ LatLong.CardinalPoint 0 false = "" := by
  refine ⟨by decide, by decide, by decide⟩

/-! ## Claim C5 -/

/-- C5: for every frame whose field count differs from the sentence
type's required count (GPGLL 7, GPGGA 14, GPGSA 17, GPVTG 9, DBT 6,
GPTXT 4, GPRMC 12), construction fails with a field-count error,
regardless of field content. -/
theorem c5_field_count_gate (fs : List String) :
    (fs.length ≠ 7 → isFieldCountErr (gpgllParse fs) = true)
    ∧ (fs.length ≠ 14 → isFieldCountErr (gpggaParse fs) = true)
    ∧ (fs.length ≠ 17 → isFieldCountErr (gpgsaParse fs) = true)
    ∧ (fs.length ≠ 9 → isFieldCountErr (gpvtgParse fs) = true)
    ∧ (fs.length ≠ 6 → isFieldCountErr (gpdbtParse fs) = true)
    ∧ (fs.length ≠ 4 → isFieldCountErr (gptxtParse fs) = true)
    ∧ (fs.length ≠ 12 → isFieldCountErr (gprmcParse fs) = true) := by
  refine ⟨fun h => ?_, fun h => ?_, fun h => ?_, fun h => ?_, fun h => ?_, fun h => ?_,
    fun h => ?_⟩
  · unfold gpgllParse; rw [if_pos h]; rfl
  · unfold gpggaParse; rw [if_pos h]; rfl
  · unfold gpgsaParse; rw [if_pos h]; rfl
  · unfold gpvtgParse; rw [if_pos h]; rfl
  · unfold gpdbtParse; rw [if_pos h]; rfl
  · unfold gptxtParse; rw [if_pos h]; rfl
  · unfold gprmcParse; rw [if_pos h]; rfl

/-- Witness for C5 at the empty frame. -/
theorem c5_field_count_gate_witness :
    isFieldCountErr (gpgllParse []) = true
    ∧ isFieldCountErr (gpggaParse []) = true
    ∧ isFieldCountErr (gpgsaParse []) = true
    ∧ isFieldCountErr (gpvtgParse []) = true
    ∧ isFieldCountErr (gpdbtParse []) = true
    ∧ isFieldCountErr (gptxtParse []) = true
    ∧ isFieldCountErr (gprmcParse []) = true := by
  have h := c5_field_count_gate []
  exact ⟨h.1 (by decide), h.2.1 (by decide), h.2.2.1 (by decide), h.2.2.2.1 (by decide),
    h.2.2.2.2.1 (by decide), h.2.2.2.2.2.1 (by decide), h.2.2.2.2.2.2 (by decide)⟩

/-! ## Claim C6 -/

/-- C6: with the correct field count, construction fails with a
fixed-field error whenever any required fixed literal is violated
(DBT: `f`/`M`/`F` at 1/3/5; VTG: `T`/`M`/`N`/`K` at 1/3/5/7; GGA: `M` at
9 and 11), so no sentence with a violated fixed field is constructed. -/
theorem c6_fixed_field_gate (fs : List String) :
    (fs.length = 6 →
      (fs.getD 1 "" ≠ "f" ∨ fs.getD 3 "" ≠ "M" ∨ fs.getD 5 "" ≠ "F") →
      isFixedFieldErr (gpdbtParse fs) = true)
    ∧ (fs.length = 9 →
      (fs.getD 1 "" ≠ "T" ∨ fs.getD 3 "" ≠ "M" ∨ fs.getD 5 "" ≠ "N" ∨ fs.getD 7 "" ≠ "K") →
      isFixedFieldErr (gpvtgParse fs) = true)
    ∧ (fs.length = 14 →
      (fs.getD 9 "" ≠ "M" ∨ fs.getD 11 "" ≠ "M") →
      isFixedFieldErr (gpggaParse fs) = true) := by
  refine ⟨fun hlen hv => ?_, fun hlen hv => ?_, fun hlen hv => ?_⟩
  · unfold gpdbtParse
    rw [if_neg (by simp [hlen])]
    by_cases h1 : fs.getD 1 "" ≠ "f"
    · rw [if_pos h1]; rfl
    · rw [if_neg h1]
      by_cases h3 : fs.getD 3 "" ≠ "M"
      · rw [if_pos h3]; rfl
      · rw [if_neg h3]
        have h5 : fs.getD 5 "" ≠ "F" := by
          rcases hv with h | h | h
          · exact absurd h h1
          · exact absurd h h3
          · exact h
        rw [if_pos h5]; rfl
  · unfold gpvtgParse
    rw [if_neg (by simp [hlen])]
    by_cases h1 : fs.getD 1 "" ≠ "T"
    · rw [if_pos h1]; rfl
    · rw [if_neg h1]
      by_cases h3 : fs.getD 3 "" ≠ "M"
      · rw [if_pos h3]; rfl
      · rw [if_neg h3]
        by_cases h5 : fs.getD 5 "" ≠ "N"
        · rw [if_pos h5]; rfl
        · rw [if_neg h5]
          have h7 : fs.getD 7 "" ≠ "K" := by
            rcases hv with h | h | h | h
            · exact absurd h h1
            · exact absurd h h3
            · exact absurd h h5
            · exact h
          rw [if_pos h7]; rfl
  · unfold gpggaParse
    rw [if_neg (by simp [hlen])]
    by_cases h9 : fs.getD 9 "" ≠ "M"
    · rw [if_pos h9]; rfl
    · rw [if_neg h9]
      have h11 : fs.getD 11 "" ≠ "M" := by
        rcases hv with h | h
        · exact absurd h h9
        · exact h
      rw [if_pos h11]; rfl

/-- Witness for C6 at concrete violating frames. -/
theorem c6_fixed_field_gate_witness :
    isFixedFieldErr (gpdbtParse ["1", "x", "2", "M", "3", "F"]) = true
    ∧ isFixedFieldErr (gpvtgParse ["0.0", "X", "", "M", "0.0", "N", "0.1", "K", "A"]) = true
    ∧ isFixedFieldErr
        (gpggaParse ["", "", "", "", "", "", "", "", "", "x", "", "M", "", ""]) = true := by
  refine ⟨?_, ?_, ?_⟩
  · exact (c6_fixed_field_gate _).1 (by decide) (Or.inl (by decide))
  · exact (c6_fixed_field_gate _).2.1 (by decide) (Or.inl (by decide))
  · exact (c6_fixed_field_gate _).2.2 (by decide) (Or.inl (by decide))

/-! ## Claim C7 -/

/-- C7 counterexample: a latitude field pair with cardinal suffix `E` and
a longitude field pair with suffix `N` are both accepted by the GPGLL
parser — contrary to the claim that only the axis-appropriate pair is
accepted at each call site. -/
theorem c7_axis_check_counterexample :
    gpgllParse ["3110.2908", "E", "2123.2348", "N", "041139.000", "A", "A"]
      = .ok ⟨⟨4, 11, 39, 0⟩, 4675727 / 150000, 3208087 / 150000, true, "A"⟩
    ∧ isErr (gpgllParse ["3110.2908", "E", "2123.2348", "N", "041139.000", "A", "A"]) = false := by
  exact ⟨by decide, by decide⟩

/-- C7 amended: `ParseDM` performs no axis check.  Any of the four
cardinal letters is accepted at any call site (subject only to that
letter's own range bound), as the accepted swapped-cardinal GPGLL frame
shows; a string is rejected on its direction only when it is shorter
than two bytes or its final letter is outside {N, S, E, W}. -/
theorem c7_axis_check_amended :
    (∀ raw : String,
      (raw.length < 2
        ∨ ¬(String.singleton raw.back = North ∨ String.singleton raw.back = South
            ∨ String.singleton raw.back = East ∨ String.singleton raw.back = West)) →
      isErr (ParseDM raw) = true)
    ∧ gpgllParse ["3110.2908", "E", "2123.2348", "N", "041139.000", "A", "A"]
        = .ok ⟨⟨4, 11, 39, 0⟩, 4675727 / 150000, 3208087 / 150000, true, "A"⟩ := by
  constructor
  · intro raw h
    unfold ParseDM
    by_cases hlen : raw.length < 2
    · rw [if_pos hlen]; rfl
    · have hmem : ¬(String.singleton raw.back = North ∨ String.singleton raw.back = South
          ∨ String.singleton raw.back = East ∨ String.singleton raw.back = West) := by
        rcases h with h | h
        · exact absurd h hlen
        · exact h
      rw [if_neg hlen]
      cases hfl : goParseFloat (goTrimSpace (raw.take (raw.length - 2))) with
      | none => rfl
      | some dm =>
        unfold ParseCardinalPoint
        rw [if_neg hmem]
        rfl
  · decide

/-- Witness for C7 amended: a string whose final letter is not a
cardinal point is rejected. -/
theorem c7_axis_check_amended_witness :
    isErr (ParseDM "3110.2908X") = true :=
  c7_axis_check_amended.1 "3110.2908X" (Or.inr (by decide))

/-! ## Claim C9 -/

/-- C9 counterexample: the claim as stated — every token outside the
member set fails with an unrecognized-value error — is false.  The
non-integer token `"abc"` fails with the strconv syntax error, and the
20-digit token `"99999999999999999999"` (beyond int64) fails with the
strconv range error; neither produces the "unknow value" error. -/
theorem c9_enum_totality_counterexample :
    ParseQualityIndicator "abc" = .error (.numFormat "abc")
    ∧ isUnrecognizedErr (ParseQualityIndicator "abc") = false
    ∧ ParseQualityIndicator "99999999999999999999"
        = .error (.numRange "99999999999999999999")
    ∧ isUnrecognizedErr (ParseQualityIndicator "99999999999999999999") = false := by
  refine ⟨by decide, by decide, by decide, by decide⟩

/-- C9 amended: every member of QualityIndicator (0, 1, 2) and of Mode
(`M`, `A`) survives a serialize-parse round trip, and neither parse
function ever returns a value its input did not denote (no silent
defaulting).  An in-range integer token outside {0,1,2} (such as `9`)
fails with the "unknow value" (unrecognized-value) error; a non-integer
token fails with the strconv syntax error; an integer token beyond the
64-bit range fails with the strconv range error.  Mode tokens outside
{M,A} fail with the "unknow value" error. -/
theorem c9_enum_totality_amended :
    (∀ v : ℤ, (v = 0 ∨ v = 1 ∨ v = 2) → ParseQualityIndicator (toString v) = .ok v)
    ∧ isUnrecognizedErr (ParseQualityIndicator "9") = true
    ∧ (∀ s : String, ∀ v : ℤ, ParseQualityIndicator s = .ok v →
        goParseInt10 s = .ok v ∧ (v = 0 ∨ v = 1 ∨ v = 2))
    ∧ (∀ s : String, ∀ i : ℤ, goParseInt10 s = .ok i → ¬(i = 0 ∨ i = 1 ∨ i = 2) →
        isUnrecognizedErr (ParseQualityIndicator s) = true)
    ∧ (∀ s : String, goParseInt10 s = .syntaxErr →
        ParseQualityIndicator s = .error (.numFormat s))
    ∧ (∀ s : String, ∀ v : ℤ, goParseInt10 s = .rangeErr v →
        ParseQualityIndicator s = .error (.numRange s))
    ∧ (∀ m : String, (m = "M" ∨ m = "A") → ParseMode m = .ok m)
    ∧ (∀ s : String, ¬(s = "M" ∨ s = "A") → isUnrecognizedErr (ParseMode s) = true)
    ∧ (∀ s m : String, ParseMode s = .ok m → (m = "M" ∨ m = "A") ∧ m = s) := by
  refine ⟨?_, by decide, ?_, ?_, ?_, ?_, ?_, ?_, ?_⟩
  · intro v hv
    rcases hv with rfl | rfl | rfl <;> decide
  · intro s v h
    unfold ParseQualityIndicator at h
    cases hi : goParseInt10 s with
    | syntaxErr => rw [hi] at h; simp at h
    | rangeErr w => rw [hi] at h; simp at h
    | ok i =>
      rw [hi] at h
      have h' : (if i = 0 ∨ i = 1 ∨ i = 2 then (Except.ok i : Except Err ℤ)
          else Except.error (Err.unrecognized s)) = Except.ok v := h
      by_cases hm : i = 0 ∨ i = 1 ∨ i = 2
      · rw [if_pos hm] at h'
        injection h' with h''
        subst h''
        exact ⟨rfl, hm⟩
      · rw [if_neg hm] at h'
        simp at h'
  · intro s i hi hm
    unfold ParseQualityIndicator
    rw [hi]
    show isUnrecognizedErr (if i = 0 ∨ i = 1 ∨ i = 2 then (Except.ok i : Except Err ℤ)
        else Except.error (Err.unrecognized s)) = true
    rw [if_neg hm]
    rfl
  · intro s hsyn
    unfold ParseQualityIndicator
    rw [hsyn]
  · intro s v hrange
    unfold ParseQualityIndicator
    rw [hrange]
  · intro m hm
    unfold ParseMode
    rw [if_pos hm]
  · intro s hs
    unfold ParseMode
    rw [if_neg hs]
    rfl
  · intro s m h
    unfold ParseMode at h
    by_cases hs : s = "M" ∨ s = "A"
    · rw [if_pos hs] at h
      injection h with h'
      subst h'
      exact ⟨hs, rfl⟩
    · rw [if_neg hs] at h
      simp at h

/-- Witness for C9 amended at concrete tokens. -/
theorem c9_enum_totality_amended_witness :
    ParseQualityIndicator (toString (1 : ℤ)) = .ok 1
    ∧ ParseMode "A" = .ok "A"
    ∧ isUnrecognizedErr (ParseMode "X") = true
    ∧ isUnrecognizedErr (ParseQualityIndicator "7") = true
    ∧ ParseQualityIndicator "abc" = .error (.numFormat "abc")
    ∧ ParseQualityIndicator "99999999999999999999"
        = .error (.numRange "99999999999999999999") :=
  ⟨c9_enum_totality_amended.1 1 (Or.inr (Or.inl rfl)),
   c9_enum_totality_amended.2.2.2.2.2.2.1 "A" (Or.inr rfl),
   c9_enum_totality_amended.2.2.2.2.2.2.2.1 "X" (by decide),
   c9_enum_totality_amended.2.2.2.1 "7" 7 (by decide) (by decide),
   c9_enum_totality_amended.2.2.2.2.1 "abc" (by decide),
   c9_enum_totality_amended.2.2.2.2.2.1 "99999999999999999999" maxInt64 (by decide)⟩

/-! ## Claim C3 -/

/-- C3 counterexample: decoding the scenario line gives latitude exactly
`31 + 10.2908/60 = 31.171513...` (the wire field is `3110.2908`, i.e. 31
degrees 10.2908 minutes), not ≈ 31.18818 as claimed; and re-encoding the
decoded sentence emits the fields in a different order (time first, no
positioning mode), producing checksum `34`, not `59`. -/
theorem c3_gpgll_scenario_counterexample :
    DecodeGPGLL "$GPGLL,3110.2908,N,12123.2348,E,041139.000,A,A*59"
      = .ok ⟨⟨4, 11, 39, 0⟩, 4675727 / 150000, 18208087 / 150000, true, "A"⟩
    ∧ (3118818 / 100000 : ℚ) - 4675727 / 150000 > 1 / 100
    ∧ gpgllSerialize ⟨⟨4, 11, 39, 0⟩, 4675727 / 150000, 18208087 / 150000, true, "A"⟩
        = "$GPGLL,041139.000,3110.2908,N,12123.2348,E,A*34" := by
  refine ⟨by decide, by norm_num, by decide⟩

/-- C3 amended: decoding the scenario line yields latitude exactly
`4675727/150000 ≈ 31.17151`, longitude `18208087/150000 ≈ 121.38725`,
time 04:11:39.000, validity true and positioning mode Autonomous (`A`);
serializing the decoded sentence produces the time-first wire string
with trailing checksum `34`. -/
theorem c3_gpgll_scenario_amended :
    DecodeGPGLL "$GPGLL,3110.2908,N,12123.2348,E,041139.000,A,A*59"
      = .ok ⟨⟨4, 11, 39, 0⟩, 4675727 / 150000, 18208087 / 150000, true, "A"⟩
    ∧ (3117151 / 100000 : ℚ) ≤ 4675727 / 150000
    ∧ (4675727 / 150000 : ℚ) ≤ 3117152 / 100000
    ∧ (12138724 / 100000 : ℚ) ≤ 18208087 / 150000
    ∧ (18208087 / 150000 : ℚ) ≤ 12138725 / 100000
    ∧ gpgllSerialize ⟨⟨4, 11, 39, 0⟩, 4675727 / 150000, 18208087 / 150000, true, "A"⟩
        = "$GPGLL,041139.000,3110.2908,N,12123.2348,E,A*34" := by
  refine ⟨by decide, by norm_num, by norm_num, by norm_num, by norm_num, by decide⟩

/-! ## Claim C8 -/

theorem string_data_eq_nil_iff (s : String) : s.data = [] ↔ s = "" := by
  constructor
  · intro h
    cases s with
    | mk d =>
      have h' : d = [] := h
      subst h'
      rfl
  · intro h
    rw [h]

theorem string_ne_empty_of_length_pos (s : String) (h : 0 < s.length) : s ≠ "" := by
  intro he
  subst he
  simp at h

theorem string_empty_of_not_length_pos (s : String) (h : ¬ 0 < s.length) : s = "" := by
  rw [← string_data_eq_nil_iff]
  have h0 : s.data.length = 0 := Nat.eq_zero_of_not_pos h
  exact List.eq_nil_of_length_eq_zero h0

theorem append_ne_empty_left (s t : String) (h : s ≠ "") : s ++ t ≠ "" := by
  intro hc
  apply h
  have hd := congrArg String.data hc
  rw [String.data_append] at hd
  rcases List.append_eq_nil.mp hd with ⟨h1, _⟩
  exact (string_data_eq_nil_iff s).mp h1

theorem append_ne_empty_right (s t : String) (h : t ≠ "") : s ++ t ≠ "" := by
  intro hc
  apply h
  have hd := congrArg String.data hc
  rw [String.data_append] at hd
  rcases List.append_eq_nil.mp hd with ⟨_, h2⟩
  exact (string_data_eq_nil_iff t).mp h2

theorem padLeft_ne_empty_of_pos (c : Char) (w : ℕ) (s : String) (hw : 0 < w) :
    padLeft c w s ≠ "" := by
  intro hc
  unfold padLeft at hc
  have hd := congrArg String.data hc
  rw [String.data_append] at hd
  rcases List.append_eq_nil.mp hd with ⟨h1, h2⟩
  have hlen : s.data.length = 0 := by rw [h2]; rfl
  have h1' : List.replicate (w - s.length) c = [] := h1
  have hrep : (List.replicate (w - s.length) c).length = 0 := by rw [h1']; rfl
  rw [List.length_replicate] at hrep
  have hsl : s.length = 0 := hlen
  omega

theorem fmtFixed1_ne_empty (q : ℚ) : fmtFixed1 q ≠ "" := by
  unfold fmtFixed1
  by_cases hq : q < 0
  · rw [if_pos hq]
    exact append_ne_empty_left _ _ (append_ne_empty_right _ _ (by decide))
  · rw [if_neg hq]
    exact append_ne_empty_left _ _ (append_ne_empty_right _ _ (by decide))

theorem fmtFixed1Pad3_ne_empty (q : ℚ) : fmtFixed1Pad3 q ≠ "" := by
  unfold fmtFixed1Pad3
  by_cases hq : q < 0
  · rw [if_pos hq]
    exact append_ne_empty_left _ _ (by decide)
  · rw [if_neg hq]
    exact padLeft_ne_empty_of_pos _ _ _ (by norm_num)

theorem prependXZero_ne_empty (q : ℚ) (x : ℕ) : PrependXZero q x ≠ "" := by
  unfold PrependXZero
  exact padLeft_ne_empty_of_pos _ _ _ (by omega)

theorem parseOptFloat_ok_none_iff (s : String) (o : Option ℚ)
    (h : parseOptFloat s = .ok o) : (o = none ↔ s = "") := by
  unfold parseOptFloat at h
  by_cases hl : 0 < s.length
  · rw [if_pos hl] at h
    cases hf : goParseFloat s with
    | none => rw [hf] at h; simp at h
    | some v =>
      rw [hf] at h
      have h' : (Except.ok (some v) : Except Err (Option ℚ)) = Except.ok o := h
      injection h' with h''
      subst h''
      exact iff_of_false (by simp) (string_ne_empty_of_length_pos s hl)
  · rw [if_neg hl] at h
    have h' : (Except.ok none : Except Err (Option ℚ)) = Except.ok o := h
    injection h' with h''
    subst h''
    exact iff_of_true rfl (string_empty_of_not_length_pos s hl)

theorem parseOptStation_ok_none_iff (s : String) (o : Option ℕ)
    (h : parseOptStation s = .ok o) : (o = none ↔ s = "") := by
  unfold parseOptStation at h
  by_cases hl : 0 < s.length
  · rw [if_pos hl] at h
    cases hf : goParseUint0Bit8 s with
    | none => rw [hf] at h; simp at h
    | some v =>
      rw [hf] at h
      have h' : (Except.ok (some v) : Except Err (Option ℕ)) = Except.ok o := h
      injection h' with h''
      subst h''
      exact iff_of_false (by simp) (string_ne_empty_of_length_pos s hl)
  · rw [if_neg hl] at h
    have h' : (Except.ok none : Except Err (Option ℕ)) = Except.ok o := h
    injection h' with h''
    subst h''
    exact iff_of_true rfl (string_empty_of_not_length_pos s hl)

theorem gpggaParse_ok_optional (fs : List String) (s : GPGGA)
    (h : gpggaParse fs = .ok s) :
    parseOptFloat (fs.getD 10 "") = .ok s.GeoIDSep
    ∧ parseOptFloat (fs.getD 12 "") = .ok s.DGPSAge
    ∧ parseOptStation (fs.getD 13 "") = .ok s.DGPSStationID := by
  unfold gpggaParse at h
  by_cases h14 : fs.length ≠ 14
  · rw [if_pos h14] at h; simp at h
  · rw [if_neg h14] at h
    by_cases h9 : fs.getD 9 "" ≠ "M"
    · rw [if_pos h9] at h; simp at h
    · rw [if_neg h9] at h
      by_cases h11 : fs.getD 11 "" ≠ "M"
      · rw [if_pos h11] at h; simp at h
      · rw [if_neg h11] at h
        simp only [bind_ok, pure_ok] at h
        obtain ⟨t, _, lat, _, lon, _, qi, _, nsat, _, hdop, _, alt, _, geo, hgeo,
          age, hage, station, hstation, heq⟩ := h
        subst heq
        exact ⟨hgeo, hage, hstation⟩

/-- C8 counterexample: GPGGA's `HDOP` does not distinguish an absent wire
field from a present `0.0`: the two frames below differ only in the HDOP
field (`"0.0"` versus empty) yet parse to the same sentence value, and
serializing that sentence emits an empty HDOP field. -/
theorem c8_optional_fields_counterexample :
    gpggaParse ["015540.000", "3150.68378", "N", "11711.93139", "E", "1", "17",
        "0.0", "0051.6", "M", "0.0", "M", "", ""]
      = gpggaParse ["015540.000", "3150.68378", "N", "11711.93139", "E", "1", "17",
        "", "0051.6", "M", "0.0", "M", "", ""]
    ∧ gpggaParse ["015540.000", "3150.68378", "N", "11711.93139", "E", "1", "17",
        "0.0", "0051.6", "M", "0.0", "M", "", ""]
      = .ok ⟨⟨1, 55, 40, 0⟩, 95534189 / 3000000, 234397713 / 2000000, 1, 17, 0, 258 / 5,
          some 0, none, none⟩
    ∧ (gpggaSerializeFields ⟨⟨1, 55, 40, 0⟩, 95534189 / 3000000, 234397713 / 2000000, 1, 17,
          0, 258 / 5, some 0, none, none⟩).getD 7 "" = "" := by
  refine ⟨by decide, by decide, by decide⟩

/-- C8 amended: the three pointer-typed GPGGA fields (geoidal separation,
DGPS age, DGPS station ID) are genuinely optional — on a successful parse
each is absent exactly when its wire field is empty, and serialization
emits an empty field exactly when it is absent.  HDOP and altitude are
plain zero-defaulted numerics: absent and zero are the same state, and
serialization emits an empty field exactly when the stored value is ≤ 0,
not when the wire field was absent. -/
theorem c8_optional_fields_amended :
    (∀ (fs : List String) (s : GPGGA), gpggaParse fs = .ok s →
      ((s.GeoIDSep = none ↔ fs.getD 10 "" = "")
       ∧ (s.DGPSAge = none ↔ fs.getD 12 "" = "")
       ∧ (s.DGPSStationID = none ↔ fs.getD 13 "" = "")))
    ∧ (∀ s : GPGGA,
      ((gpggaSerializeFields s).getD 10 "" = "" ↔ s.GeoIDSep = none)
      ∧ ((gpggaSerializeFields s).getD 12 "" = "" ↔ s.DGPSAge = none)
      ∧ ((gpggaSerializeFields s).getD 13 "" = "" ↔ s.DGPSStationID = none)
      ∧ ((gpggaSerializeFields s).getD 7 "" = "" ↔ s.HDOP ≤ 0)
      ∧ ((gpggaSerializeFields s).getD 8 "" = "" ↔ s.Altitude ≤ 0)) := by
  constructor
  · intro fs s h
    obtain ⟨hg, ha, hst⟩ := gpggaParse_ok_optional fs s h
    exact ⟨parseOptFloat_ok_none_iff _ _ hg, parseOptFloat_ok_none_iff _ _ ha,
      parseOptStation_ok_none_iff _ _ hst⟩
  · intro s
    have e7 : (gpggaSerializeFields s).getD 7 ""
        = (if 0 < s.HDOP then fmtFixed1Pad3 s.HDOP else "") := rfl
    have e8 : (gpggaSerializeFields s).getD 8 ""
        = (if 0 < s.Altitude then PrependXZero s.Altitude 4 else "") := rfl
    have e10 : (gpggaSerializeFields s).getD 10 ""
        = (match s.GeoIDSep with
           | some g => fmtFixed1Pad3 g
           | none => "") := rfl
    have e12 : (gpggaSerializeFields s).getD 12 ""
        = (match s.DGPSAge with
           | some a => fmtFixed1 a
           | none => "") := rfl
    have e13 : (gpggaSerializeFields s).getD 13 ""
        = (match s.DGPSStationID with
           | some v => padLeft '0' 4 (toString v)
           | none => "") := rfl
    refine ⟨?_, ?_, ?_, ?_, ?_⟩
    · rw [e10]
      cases s.GeoIDSep with
      | none => simp
      | some g => exact iff_of_false (fmtFixed1Pad3_ne_empty g) (by simp)
    · rw [e12]
      cases s.DGPSAge with
      | none => simp
      | some a => exact iff_of_false (fmtFixed1_ne_empty a) (by simp)
    · rw [e13]
      cases s.DGPSStationID with
      | none => simp
      | some v => exact iff_of_false (padLeft_ne_empty_of_pos _ _ _ (by norm_num)) (by simp)
    · rw [e7]
      by_cases hh : 0 < s.HDOP
      · rw [if_pos hh]
        exact iff_of_false (fmtFixed1Pad3_ne_empty _) (not_le.mpr hh)
      · rw [if_neg hh]
        exact iff_of_true rfl (le_of_not_lt hh)
    · rw [e8]
      by_cases hh : 0 < s.Altitude
      · rw [if_pos hh]
        exact iff_of_false (prependXZero_ne_empty _ _) (not_le.mpr hh)
      · rw [if_neg hh]
        exact iff_of_true rfl (le_of_not_lt hh)

/-- Witness for C8 amended at a concrete parsed frame and sentence. -/
theorem c8_optional_fields_amended_witness :
    ((some (0 : ℚ) = none ↔ ("0.0" : String) = "")
     ∧ ((none : Option ℚ) = none ↔ ("" : String) = "")
     ∧ ((none : Option ℕ) = none ↔ ("" : String) = "")) := by
  have h := c8_optional_fields_amended.1
    ["015540.000", "3150.68378", "N", "11711.93139", "E", "1", "17",
     "", "0051.6", "M", "0.0", "M", "", ""]
    ⟨⟨1, 55, 40, 0⟩, 95534189 / 3000000, 234397713 / 2000000, 1, 17, 0, 258 / 5,
      some 0, none, none⟩
    (by decide)
  exact h

/-! ## Claim C10 -/

/-- C10 counterexample: a satellite-ID field that is not a valid integer
does not always yield slot 0.  For the out-of-range digit string
`"99999999999999999999"` Go's `Atoi` returns the clamped `MaxInt64`
alongside `ErrRange`; the loop ignores the error, so the slot stores
9223372036854775807, not 0 (the parse still succeeds). -/
theorem c10_satellite_slots_counterexample :
    gpgsaParse ["A", "3", "99999999999999999999", "", "", "", "", "", "", "", "", "", "", "",
        "1.0", "1.0", "1.0"]
      = .ok ⟨"A", 3, [0, 9223372036854775807, 0, 0, 0, 0, 0, 0, 0, 0, 0, 0, 0], 1, 1, 1⟩
    ∧ (9223372036854775807 : ℤ) ≠ 0 := by
  refine ⟨by decide, by decide⟩

/-- C10 amended: in a 17-field GPGSA frame, the satellite-ID field at
payload index `2 + k` (k = 0..11) lands in `SatelliteUsedOnChannel` slot
`k + 1`, slot 0 is always 0, and the content of the twelve satellite
fields never decides success — the parse outcome (error or not) is the
same as with all satellite fields empty.  Each slot holds the value
`Atoi` returns with its error ignored: the exact integer for a valid
in-range field, 0 for an empty or syntactically invalid field, and the
clamped `MaxInt64`/`MinInt64` for an out-of-range integer field. -/
theorem c10_satellite_slots_amended (a b p hd vd : String) (xs : List String)
    (hlen : xs.length = 12) :
    (∀ st : GPGSA, gpgsaParse (a :: b :: (xs ++ [p, hd, vd])) = .ok st →
        st.SatelliteUsedOnChannel.getD 0 0 = 0
        ∧ ∀ k : ℕ, k < 12 →
            st.SatelliteUsedOnChannel.getD (k + 1) 0 = goAtoiD (xs.getD k ""))
    ∧ isErr (gpgsaParse (a :: b :: (xs ++ [p, hd, vd])))
        = isErr (gpgsaParse (a :: b :: (List.replicate 12 "" ++ [p, hd, vd])))
    ∧ goAtoiD "" = 0
    ∧ (∀ s : String, goParseInt10 s = .syntaxErr → goAtoiD s = 0)
    ∧ (∀ s : String, ∀ v : ℤ, goParseInt10 s = .rangeErr v → goAtoiD s = v)
    ∧ (∀ s : String, ∀ v : ℤ, goParseInt10 s = .ok v → goAtoiD s = v) := by
  have hg14 : (a :: b :: (xs ++ [p, hd, vd])).getD 14 "" = p := by
    show (xs ++ [p, hd, vd]).getD 12 "" = p
    rw [List.getD_append_right xs [p, hd, vd] "" 12 (by omega)]
    simp [hlen]
  have hg15 : (a :: b :: (xs ++ [p, hd, vd])).getD 15 "" = hd := by
    show (xs ++ [p, hd, vd]).getD 13 "" = hd
    rw [List.getD_append_right xs [p, hd, vd] "" 13 (by omega)]
    simp [hlen]
  have hg16 : (a :: b :: (xs ++ [p, hd, vd])).getD 16 "" = vd := by
    show (xs ++ [p, hd, vd]).getD 14 "" = vd
    rw [List.getD_append_right xs [p, hd, vd] "" 14 (by omega)]
    simp [hlen]
  have htake : (xs ++ [p, hd, vd]).take 12 = xs := by
    rw [← hlen]
    exact List.take_left xs [p, hd, vd]
  have hL : gpgsaParse (a :: b :: (xs ++ [p, hd, vd]))
      = (do
          let mode ← ParseMode a
          let fix ← ParseFixStatus b
          let pdop ← parseFloatOr0 p
          let hdop ← parseFloatOr0 hd
          let vdop ← parseFloatOr0 vd
          pure ⟨mode, fix, 0 :: xs.map goAtoiD, pdop, hdop, vdop⟩) := by
    unfold gpgsaParse
    rw [if_neg (by simp [hlen])]
    rw [show (a :: b :: (xs ++ [p, hd, vd])).drop 2 = xs ++ [p, hd, vd] from rfl]
    rw [htake, hg14, hg15, hg16]
    rfl
  have hR : gpgsaParse (a :: b :: (List.replicate 12 "" ++ [p, hd, vd]))
      = (do
          let mode ← ParseMode a
          let fix ← ParseFixStatus b
          let pdop ← parseFloatOr0 p
          let hdop ← parseFloatOr0 hd
          let vdop ← parseFloatOr0 vd
          pure ⟨mode, fix, 0 :: (List.replicate 12 "").map goAtoiD, pdop, hdop, vdop⟩) := by
    have h12 : (List.replicate 12 "" : List String).length = 12 := by simp
    have hg14' : (a :: b :: (List.replicate 12 "" ++ [p, hd, vd])).getD 14 "" = p := by
      show (List.replicate 12 "" ++ [p, hd, vd]).getD 12 "" = p
      rw [List.getD_append_right (List.replicate 12 "") [p, hd, vd] "" 12 (by simp)]
      simp
    have hg15' : (a :: b :: (List.replicate 12 "" ++ [p, hd, vd])).getD 15 "" = hd := by
      show (List.replicate 12 "" ++ [p, hd, vd]).getD 13 "" = hd
      rw [List.getD_append_right (List.replicate 12 "") [p, hd, vd] "" 13 (by simp)]
      simp
    have hg16' : (a :: b :: (List.replicate 12 "" ++ [p, hd, vd])).getD 16 "" = vd := by
      show (List.replicate 12 "" ++ [p, hd, vd]).getD 14 "" = vd
      rw [List.getD_append_right (List.replicate 12 "") [p, hd, vd] "" 14 (by simp)]
      simp
    have htake' : (List.replicate 12 "" ++ [p, hd, vd]).take 12 = List.replicate 12 "" := by
      rw [← h12]
      exact List.take_left _ [p, hd, vd]
    unfold gpgsaParse
    rw [if_neg (by simp)]
    rw [show (a :: b :: (List.replicate 12 "" ++ [p, hd, vd])).drop 2
        = List.replicate 12 "" ++ [p, hd, vd] from rfl]
    rw [htake', hg14', hg15', hg16']
    rfl
  refine ⟨?_, ?_, rfl, ?_, ?_, ?_⟩
  · intro st hok
    rw [hL] at hok
    simp only [bind_ok, pure_ok] at hok
    obtain ⟨mode, _, fix, _, pdop, _, hdop2, _, vdop, _, heq⟩ := hok
    subst heq
    refine ⟨rfl, ?_⟩
    intro k hk
    show (xs.map goAtoiD).getD k 0 = goAtoiD (xs.getD k "")
    conv_lhs => rw [show (0 : ℤ) = goAtoiD "" from rfl]
    rw [List.getD_map]
  · rw [hL, hR]
    cases ParseMode a <;> cases ParseFixStatus b <;> cases parseFloatOr0 p
      <;> cases parseFloatOr0 hd <;> cases parseFloatOr0 vd
      <;> simp [Bind.bind, Except.bind, isErr, pure, Except.pure]
  · intro s hs
    unfold goAtoiD
    rw [hs]
  · intro s v hs
    unfold goAtoiD
    rw [hs]
  · intro s v hs
    unfold goAtoiD
    rw [hs]

/-- Witness for C10 amended at the GPGSA example frame
(`$GPGSA,A,3,14,06,16,31,23,,,,,,,,1.66,1.42,0.84*0F`) plus the clamped
and syntactically-invalid `Atoi` cases. -/
theorem c10_satellite_slots_amended_witness :
    ((0 : ℤ) = 0
     ∧ ([0, 14, 6, 16, 31, 23, 0, 0, 0, 0, 0, 0, 0] : List ℤ).getD (0 + 1) 0
        = goAtoiD (["14", "06", "16", "31", "23", "", "", "", "", "", "", ""].getD 0 ""))
    ∧ isErr (gpgsaParse ("A" :: "3" ::
          (["14", "06", "16", "31", "23", "", "", "", "", "", "", ""] ++ ["1.66", "1.42", "0.84"])))
        = isErr (gpgsaParse ("A" :: "3" :: (List.replicate 12 "" ++ ["1.66", "1.42", "0.84"])))
    ∧ goAtoiD "99999999999999999999" = maxInt64
    ∧ goAtoiD "xx" = 0 := by
  have h := c10_satellite_slots_amended "A" "3" "1.66" "1.42" "0.84"
    ["14", "06", "16", "31", "23", "", "", "", "", "", "", ""] (by decide)
  have h1 := h.1 ⟨"A", 3, [0, 14, 6, 16, 31, 23, 0, 0, 0, 0, 0, 0, 0], 83 / 50, 71 / 50, 21 / 25⟩
    (by decide)
  exact ⟨⟨h1.1, h1.2 0 (by decide)⟩, h.2.1,
    h.2.2.2.2.1 "99999999999999999999" maxInt64 (by decide),
    h.2.2.2.1 "xx" (by decide)⟩

end Claims

end Nmea
